import Mathlib

/-!
Shallow embedding of the BCCSP-backed MSP implementation (`msp/mspimpl.go`).

External collaborators (the BCCSP crypto provider, `crypto/x509` chain
verification, `encoding/pem`, protobuf wire decoding) are modelled as
abstract, executable oracles over inductive byte types: a byte blob is
represented by the structured value it decodes to, or by an explicit
malformed case.  Go's `panic` and nil-pointer dereferences are modelled by
an explicit `Outcome.panicked` result so that uncontrolled aborts are
distinguishable from returned error values.
-/

namespace MspCore

/-- The two abort sites the implementation can hit: the explicit
`panic("Not yet implemented")` calls, and a runtime nil-pointer
dereference. -/
inductive PanicKind where
  | notYetImplemented
  | nilDereference
deriving DecidableEq, Repr

/-- One constructor per distinct error return site of `mspimpl.go`
(plus the spec-modelled signer-binding validation failure). -/
inductive MspError where
  | nilConfReference
  | configUnmarshalFailed
  | nilIdBytes
  | pemDecodeFailed
  | certParseFailed
  | pubKeyImportFailed
  | nilSidInfo
  | privKeyImportFailed
  | signerPubKeyMismatch
  | noRootCerts
  | invalidMspInstance
  | caUsedAsIdentity
  | chainVerificationFailed
  | sidUnmarshalFailed
  | mspMismatch (expected got : String)
  | pemStructureFailed
  | certParseFailedDeser
  | pubKeyImportFailedDeser
  | roleUnmarshalFailed
  | differentMSP (expected got : String)
  | invalidRoleType (r : Int)
  | identitiesDoNotMatch
  | invalidPrincipalType (t : Int)
deriving DecidableEq, Repr

/-- The result of a Go call: a returned value, a returned error, or a
process abort (panic / runtime nil dereference). -/
inductive Outcome (α : Type) where
  | ok (a : α)
  | err (e : MspError)
  | panicked (k : PanicKind)
deriving DecidableEq, Repr

/-- An x509 certificate as far as this MSP inspects it: the CA flag, a
serial tag standing for the raw DER content, the public key handle the
crypto provider would import (`none` when the import fails), and the set
of root serials the external PKI chain oracle accepts for it. -/
structure Certificate where
  serial : Nat
  isCA : Bool
  pubKey : Option Nat
  verifiableBy : List Nat
deriving DecidableEq, Repr

/-- DER-level bytes: a well-formed certificate, a well-formed ECDSA
private key, or malformed data. -/
inductive DerBytes where
  | certDer (c : Certificate)
  | keyDer (k : Nat)
  | malformed (n : Nat)
deriving DecidableEq, Repr

/-- A non-nil byte slice fed to `pem.Decode`: either a valid PEM block
wrapping DER bytes, or bytes with no PEM block. -/
inductive PemBytes where
  | valid (d : DerBytes)
  | invalid (n : Nat)
deriving DecidableEq, Repr

/-- `pem.Decode` on a non-nil slice: returns the block's bytes or no
block. -/
def pemDecode : PemBytes → Option DerBytes
  | .valid d => some d
  | .invalid _ => none

/-- `pem.Decode` on a possibly-nil Go slice (`pem.Decode(nil)` yields a
nil block). -/
def pemDecodeGo : Option PemBytes → Option DerBytes
  | none => none
  | some pb => pemDecode pb

/-- `x509.ParseCertificate`. -/
def parseCertificate : DerBytes → Option Certificate
  | .certDer c => some c
  | _ => none

/-- Crypto-provider oracle: `bccsp.KeyImport` with
`X509PublicKeyImportOpts`; fails when the certificate's key is not
importable. -/
def keyImportX509 (c : Certificate) : Except MspError Nat :=
  match c.pubKey with
  | some k => .ok k
  | none => .error .pubKeyImportFailed

/-- Crypto-provider oracle: `bccsp.KeyImport` with
`ECDSAPrivateKeyImportOpts`. -/
def keyImportECDSA : DerBytes → Except MspError Nat
  | .keyDer k => .ok k
  | _ => .error .privKeyImportFailed

/-- Crypto-provider oracle: ECDSA public-key derivation.  Key handles
name keypairs, so the public part of handle `k` is `k` itself. -/
def derivePublicKey (k : Nat) : Nat := k

/-- `IdentityIdentifier` (provider name + local id). -/
structure IdentityIdentifier where
  Mspid : String
  Id : String
deriving DecidableEq, Repr

/-- The concrete `*identity` value (`msp/identity.go`): identifier,
parsed certificate, imported public key handle.  The weak back-reference
to the owning MSP carries no observable data and is omitted. -/
structure Identity where
  id : IdentityIdentifier
  cert : Certificate
  pk : Nat
deriving DecidableEq, Repr

/-- A bound signer handle, carrying the public key derived from the
private key it was bound to. -/
structure CryptoSigner where
  pubKey : Nat
deriving DecidableEq, Repr

/-- The concrete `*signingidentity` value: an identity plus a bound
signer. -/
structure SigningIdentityS where
  id : IdentityIdentifier
  cert : Certificate
  pk : Nat
  signer : CryptoSigner
deriving DecidableEq, Repr

/-- The `SerializedIdentity` wire record `{mspId, idBytes}`. -/
structure SerializedIdentity where
  Mspid : String
  IdBytes : Option PemBytes
deriving DecidableEq, Repr

/-- `MSPRole.MSPRoleType`: MEMBER, ADMIN, or any other enum value. -/
inductive MSPRoleType where
  | MEMBER
  | ADMIN
  | other (n : Int)
deriving DecidableEq, Repr

/-- The `MSPRole` principal payload `{mspIdentifier, role}`. -/
structure MSPRole where
  MSPIdentifier : String
  Role : MSPRoleType
deriving DecidableEq, Repr

/-- `MSPPrincipal.Classification`: ROLE, IDENTITY, ORGANIZATION_UNIT, or
any other enum value. -/
inductive Classification where
  | ROLE
  | IDENTITY
  | ORGANIZATION_UNIT
  | other (n : Int)
deriving DecidableEq, Repr

/-- Protobuf-marshalled bytes appearing at the wire boundaries: a
marshalled `MSPRole`, a marshalled `SerializedIdentity`, or bytes that
decode as neither. -/
inductive WireBytes where
  | ofRole (r : MSPRole)
  | ofSID (s : SerializedIdentity)
  | junk (n : Nat)
deriving DecidableEq, Repr

/-- `proto.Unmarshal` into an `MSPRole`. -/
def unmarshalRole : WireBytes → Option MSPRole
  | .ofRole r => some r
  | _ => none

/-- `proto.Unmarshal` into a `SerializedIdentity`. -/
def unmarshalSID : WireBytes → Option SerializedIdentity
  | .ofSID s => some s
  | _ => none

/-- An `MSPPrincipal`: classification tag plus opaque payload bytes. -/
structure MSPPrincipal where
  PrincipalClassification : Classification
  Principal : WireBytes
deriving DecidableEq, Repr

/-- `KeyInfo` (the `PrivateSigner` message): its `KeyMaterial` byte
slice, possibly nil. -/
structure KeyInfo where
  KeyMaterial : Option PemBytes
deriving DecidableEq, Repr

/-- `SigningIdentityInfo`: public certificate bytes (possibly nil) and a
possibly-nil pointer to the private-key record. -/
structure SigningIdentityInfo where
  PublicSigner : Option PemBytes
  PrivateSigner : Option KeyInfo
deriving DecidableEq, Repr

/-- `FabricMSPConfig`, restricted to the fields `Setup` reads.  `Admins`
and `IntermediateCerts` distinguish a nil slice (checked with `!= nil`)
from a non-nil one; for `RootCerts` only the length is checked, so nil
and empty coincide.  Each element is a possibly-nil byte slice. -/
structure FabricMSPConfig where
  Name : String
  Admins : Option (List (Option PemBytes))
  RootCerts : List (Option PemBytes)
  IntermediateCerts : Option (List (Option PemBytes))
  SigningIdentity : Option SigningIdentityInfo
deriving DecidableEq, Repr

/-- Marshalled `FabricMSPConfig` bytes. -/
inductive ConfigBytes where
  | ofConf (c : FabricMSPConfig)
  | malformed (n : Nat)
deriving DecidableEq, Repr

/-- `proto.Unmarshal` into a `FabricMSPConfig`. -/
def unmarshalConfig : ConfigBytes → Option FabricMSPConfig
  | .ofConf c => some c
  | .malformed _ => none

/-- The outer `MSPConfig` envelope; `Setup` reads only `Config`. -/
structure MSPConfig where
  Config : ConfigBytes
deriving DecidableEq, Repr

/-- `x509.VerifyOptions` as populated by `Setup`: the root and
intermediate cert pools. -/
structure VerifyOptions where
  roots : List Certificate
  intermediates : List Certificate
deriving DecidableEq, Repr

/-- External PKI oracle: `cert.Verify(opts)` succeeds iff the certificate
chains to some certificate registered in the root pool. -/
def certVerify (c : Certificate) (o : VerifyOptions) : Bool :=
  o.roots.any (fun r => c.verifiableBy.contains r.serial)

/-- The `bccspmsp` struct.  `admins`, `rootCerts` and `intermediateCerts`
are Go slices of interface values, so a freshly allocated slice holds
nils: elements are `Option Identity`, `none` standing for a nil slot.
The crypto-provider field carries no state and is left implicit. -/
structure BccspMsp where
  rootCerts : List (Option Identity)
  intermediateCerts : List (Option Identity)
  signer : Option SigningIdentityS
  admins : List (Option Identity)
  name : String
  opts : Option VerifyOptions
deriving DecidableEq, Repr

/-- The zero-valued `bccspmsp` allocated by `NewBccspMsp`
(`theMsp := &bccspmsp{}`): every field nil / empty. -/
def initialMsp : BccspMsp :=
  { rootCerts := [], intermediateCerts := [], signer := none,
    admins := [], name := "", opts := none }

/-- `getIdentityFromConf`: nil check, PEM decode, certificate parse,
public-key import, identity construction with the fixed local id
`"IDENTITY"`. -/
def getIdentityFromConf (msp : BccspMsp) (idBytes : Option PemBytes) :
    Except MspError Identity :=
  match idBytes with
  | none => .error .nilIdBytes
  | some pb =>
    match pemDecode pb with
    | none => .error .pemDecodeFailed
    | some der =>
      match parseCertificate der with
      | none => .error .certParseFailed
      | some cert =>
        match keyImportX509 cert with
        | .error e => .error e
        | .ok certPubK =>
          .ok { id := { Mspid := msp.name, Id := "IDENTITY" },
                cert := cert, pk := certPubK }

/-- Modelled from the spec: the signer-binding step
(`signer.CryptoSigner.Init` in `bccsp/signer` together with
`newSigningIdentity` in `msp/identity.go`, repository code not under
`src/`).  Per the spec it binds a signer to the imported private key and
validates that the bound signer's public key matches the already-ingested
public certificate's key; a failed validation fails the whole setup. -/
def bindSigner (certPubKey : Nat) (privKey : Nat) : Except MspError CryptoSigner :=
  if derivePublicKey privKey = certPubKey then
    .ok { pubKey := derivePublicKey privKey }
  else
    .error .signerPubKeyMismatch

/-- `getSigningIdentityFromConf`: ingests the public certificate, then
runs `pem.Decode(sidInfo.PrivateSigner.KeyMaterial)` *without* a nil
check — a nil `PrivateSigner` pointer or a nil decoded block is
dereferenced and aborts the process — then imports the private key and
binds the signer. -/
def getSigningIdentityFromConf (msp : BccspMsp) (sidInfo : Option SigningIdentityInfo) :
    Outcome SigningIdentityS :=
  match sidInfo with
  | none => .err .nilSidInfo
  | some si =>
    match getIdentityFromConf msp si.PublicSigner with
    | .error e => .err e
    | .ok idPub =>
      match si.PrivateSigner with
      | none => .panicked .nilDereference
      | some ki =>
        match pemDecodeGo ki.KeyMaterial with
        | none => .panicked .nilDereference
        | some der =>
          match keyImportECDSA der with
          | .error e => .err e
          | .ok key =>
            match bindSigner idPub.pk key with
            | .error e => .err e
            | .ok peerSigner =>
              .ok { id := { Mspid := msp.name, Id := "DEFAULT" },
                    cert := idPub.cert, pk := idPub.pk, signer := peerSigner }

/-- One `make`-then-fill ingest loop of `Setup`: on success the fully
filled list of identities; on failure the slice contents at the moment of
the early return (ingested prefix, then the still-nil slots) and the
error. -/
def ingestLoop (msp : BccspMsp) :
    List (Option PemBytes) → Except (List (Option Identity) × MspError) (List Identity)
  | [] => .ok []
  | b :: bs =>
    match getIdentityFromConf msp b with
    | .error e => .error (none :: bs.map (fun _ => none), e)
    | .ok i =>
      match ingestLoop msp bs with
      | .error (part, e) => .error (some i :: part, e)
      | .ok ids => .ok (i :: ids)

/-- Final phase of `Setup` (lines 214–226): build the verify options from
the just-stored root and intermediate identities and succeed. -/
def setupOpts (m : BccspMsp) (rootIds interIds : List Identity) :
    BccspMsp × Outcome Unit :=
  ({ m with opts := some { roots := rootIds.map (·.cert),
                           intermediates := interIds.map (·.cert) } },
   .ok ())

/-- Signing-identity phase of `Setup` (lines 204–212). -/
def setupSigner (m : BccspMsp) (rootIds interIds : List Identity)
    (conf : FabricMSPConfig) : BccspMsp × Outcome Unit :=
  match conf.SigningIdentity with
  | some si =>
    match getSigningIdentityFromConf m (some si) with
    | .panicked k => (m, .panicked k)
    | .err e => (m, .err e)
    | .ok s => setupOpts { m with signer := some s } rootIds interIds
  | none => setupOpts m rootIds interIds

/-- Intermediate-certificate phase of `Setup` (lines 189–202). -/
def setupIntermediates (m : BccspMsp) (rootIds : List Identity)
    (conf : FabricMSPConfig) : BccspMsp × Outcome Unit :=
  match conf.IntermediateCerts with
  | some blobs =>
    match ingestLoop m blobs with
    | .error (part, e) => ({ m with intermediateCerts := part }, .err e)
    | .ok interIds =>
      setupSigner { m with intermediateCerts := interIds.map some } rootIds interIds conf
  | none => setupSigner { m with intermediateCerts := [] } rootIds [] conf

/-- Root-certificate phase of `Setup` (lines 175–187): mandatory
non-empty root list, then ingest. -/
def setupRoots (m : BccspMsp) (conf : FabricMSPConfig) : BccspMsp × Outcome Unit :=
  if conf.RootCerts.isEmpty then (m, .err .noRootCerts)
  else
    match ingestLoop m conf.RootCerts with
    | .error (part, e) => ({ m with rootCerts := part }, .err e)
    | .ok rootIds =>
      setupIntermediates { m with rootCerts := rootIds.map some } rootIds conf

/-- `Setup` (lines 146–227), as a state transformer on the receiver: nil
check, config unmarshal, in-place `name` update, then the admin, root,
intermediate, signer and verify-options phases.  Each early `return err`
leaves the receiver exactly as mutated so far. -/
def Setup (msp : BccspMsp) (conf1 : Option MSPConfig) : BccspMsp × Outcome Unit :=
  match conf1 with
  | none => (msp, .err .nilConfReference)
  | some c1 =>
    match unmarshalConfig c1.Config with
    | none => (msp, .err .configUnmarshalFailed)
    | some conf =>
      let m1 : BccspMsp := { msp with name := conf.Name }
      match conf.Admins with
      | some adminBlobs =>
        match ingestLoop m1 adminBlobs with
        | .error (part, e) => ({ m1 with admins := part }, .err e)
        | .ok adminIds => setupRoots { m1 with admins := adminIds.map some } conf
      | none => setupRoots m1 conf

/-- `Validate` (lines 263–302).  The identity argument is the single
concrete variant of the closed identity set, so the type switch always
takes the `*identity` arm. -/
def Validate (msp : BccspMsp) (id : Identity) : Except MspError Unit :=
  match msp.opts with
  | none => .error .invalidMspInstance
  | some o =>
    if id.cert.isCA then .error .caUsedAsIdentity
    else if certVerify id.cert o then .ok () else .error .chainVerificationFailed

/-- `deserializeIdentityInternal` (lines 324–351): PEM decode (nil input
tolerated), certificate parse, key import, identity construction with the
fixed local id `"DEFAULT"`. -/
def deserializeIdentityInternal (msp : BccspMsp) (serializedIdentity : Option PemBytes) :
    Except MspError Identity :=
  match pemDecodeGo serializedIdentity with
  | none => .error .pemStructureFailed
  | some der =>
    match parseCertificate der with
    | none => .error .certParseFailedDeser
    | some cert =>
      match keyImportX509 cert with
      | .error _ => .error .pubKeyImportFailedDeser
      | .ok pub =>
        .ok { id := { Mspid := msp.name, Id := "DEFAULT" }, cert := cert, pk := pub }

/-- `DeserializeIdentity` (lines 306–321): unmarshal the wire record,
compare its MSP id against the store's current name, then parse the
embedded certificate. -/
def DeserializeIdentity (msp : BccspMsp) (serializedID : WireBytes) :
    Except MspError Identity :=
  match unmarshalSID serializedID with
  | none => .error .sidUnmarshalFailed
  | some sId =>
    if sId.Mspid ≠ msp.name then .error (.mspMismatch msp.name sId.Mspid)
    else deserializeIdentityInternal msp sId.IdBytes

/-- Modelled from the spec: `identity.Serialize` (`msp/identity.go`, not
under `src/`) — the only externally visible encoding of an identity: a
marshalled `SerializedIdentity` carrying the identity's provider name and
its certificate re-encoded as a PEM block around the raw DER. -/
def serializeIdentity (i : Identity) : WireBytes :=
  .ofSID { Mspid := i.id.Mspid, IdBytes := some (.valid (.certDer i.cert)) }

/-- A returned Go `error` value lifted into an outcome (the implicit
conversion at `return msp.Validate(id)`). -/
def liftExcept : Except MspError Unit → Outcome Unit
  | .ok _ => .ok ()
  | .error e => .err e

/-- `SatisfiesPrincipal` (lines 354–402), with both `panic("Not yet
implemented")` sites modelled as aborts. -/
def SatisfiesPrincipal (msp : BccspMsp) (id : Identity) (principal : MSPPrincipal) :
    Outcome Unit :=
  match principal.PrincipalClassification with
  | .ROLE =>
    match unmarshalRole principal.Principal with
    | none => .err .roleUnmarshalFailed
    | some mspRole =>
      if mspRole.MSPIdentifier ≠ msp.name then
        .err (.differentMSP mspRole.MSPIdentifier id.id.Mspid)
      else
        match mspRole.Role with
        | .MEMBER => liftExcept (Validate msp id)
        | .ADMIN => .panicked .notYetImplemented
        | .other n => .err (.invalidRoleType n)
  | .IDENTITY =>
    if serializeIdentity id = principal.Principal then .ok ()
    else .err .identitiesDoNotMatch
  | .ORGANIZATION_UNIT => .panicked .notYetImplemented
  | .other n => .err (.invalidPrincipalType n)

/-- Whether an outcome is the cross-domain role mismatch error. -/
def isDomainMismatch : Outcome Unit → Bool
  | .err (.differentMSP _ _) => true
  | _ => false

/-- Whether an outcome is a returned (catchable) error value. -/
def isErrResult : Outcome Unit → Bool
  | .err _ => true
  | _ => false

/-- Whether a stored signer exists and its bound signer's public key
matches both the identity's key handle and the certificate's key. -/
def signerMatches : Option SigningIdentityS → Bool
  | some s => decide (s.signer.pubKey = s.pk) && decide (s.cert.pubKey = some s.pk)
  | none => false

/-! ### Concrete sample data used by witnesses and counterexamples -/

/-- A well-formed end-entity certificate chaining to root serial 1. -/
def certA : Certificate :=
  { serial := 1, isCA := false, pubKey := some 5, verifiableBy := [1] }

/-- A well-formed CA certificate whose chain the PKI oracle accepts
against itself. -/
def certCA : Certificate :=
  { serial := 2, isCA := true, pubKey := some 7, verifiableBy := [2] }

/-- A sample identity over `certA`. -/
def sampleId : Identity :=
  { id := { Mspid := "", Id := "DEFAULT" }, cert := certA, pk := 5 }

/-- A store that has completed setup with `certCA` as its only root. -/
def mSet : BccspMsp :=
  { initialMsp with
    name := "org1",
    rootCerts := [some { id := { Mspid := "org1", Id := "IDENTITY" }, cert := certCA, pk := 7 }],
    opts := some { roots := [certCA], intermediates := [] } }

/-- The identity wrapping the CA certificate itself. -/
def idOfCA : Identity :=
  { id := { Mspid := "org1", Id := "IDENTITY" }, cert := certCA, pk := 7 }

/-! ### Helper lemmas (shared) -/

/-- An identity returned by `getIdentityFromConf` carries the key handle
the crypto provider imported from its certificate. -/
theorem getIdentityFromConf_pubKey (m : BccspMsp) (b : Option PemBytes) (i : Identity)
    (h : getIdentityFromConf m b = .ok i) : i.cert.pubKey = some i.pk := by
  unfold getIdentityFromConf at h
  split at h
  · simp at h
  · split at h
    · simp at h
    · split at h
      · simp at h
      · rename_i cert hcert
        split at h
        · simp at h
        · rename_i certPubK hok
          injection h with h
          subst h
          unfold keyImportX509 at hok
          split at hok
          · rename_i k hk
            injection hok with hok
            subst hok
            simpa using hk
          · simp at hok

/-- A signing identity returned by `getSigningIdentityFromConf` has a
bound signer whose public key matches the identity's key handle, which in
turn is the certificate's imported key. -/
theorem getSigningIdentityFromConf_matches (m : BccspMsp) (si : Option SigningIdentityInfo)
    (s : SigningIdentityS) (h : getSigningIdentityFromConf m si = .ok s) :
    s.signer.pubKey = s.pk ∧ s.cert.pubKey = some s.pk := by
  unfold getSigningIdentityFromConf at h
  split at h
  · simp at h
  · split at h
    · simp at h
    · rename_i si' x idPub hidPub
      split at h
      · simp at h
      · split at h
        · simp at h
        · split at h
          · simp at h
          · rename_i key hkey
            split at h
            · simp at h
            · rename_i peerSigner hbind
              injection h with h
              subst h
              unfold bindSigner at hbind
              split at hbind
              · rename_i hd
                injection hbind with hbind
                subst hbind
                refine ⟨by simpa [derivePublicKey] using hd, ?_⟩
                exact getIdentityFromConf_pubKey m si'.PublicSigner idPub hidPub
              · simp at hbind

/-- `deserializeIdentityInternal` never reports an uninitialized
instance. -/
theorem deserializeIdentityInternal_ne_uninit (m : BccspMsp) (sb : Option PemBytes) :
    deserializeIdentityInternal m sb ≠ .error .invalidMspInstance := by
  unfold deserializeIdentityInternal
  split
  · simp
  · split
    · simp
    · split
      · simp
      · simp

/-- The lifted result of `Validate` is never the cross-domain role
mismatch error. -/
theorem isDomainMismatch_validate (m : BccspMsp) (i : Identity) :
    isDomainMismatch (liftExcept (Validate m i)) = false := by
  unfold Validate
  split
  · simp [liftExcept, isDomainMismatch]
  · split
    · simp [liftExcept, isDomainMismatch]
    · split
      · simp [liftExcept, isDomainMismatch]
      · simp [liftExcept, isDomainMismatch]

/-! ### Claim C4 -/

/-- C4: for every identity whose certificate has the CA flag set,
`Validate` on a store with non-absent verify options fails with the
CA-used-as-identity error, regardless of chain validity; the chain
verification step is never reached. -/
theorem validate_rejects_ca (m : BccspMsp) (o : VerifyOptions) (i : Identity)
    (h1 : m.opts = some o) (h2 : i.cert.isCA = true) :
    Validate m i = .error .caUsedAsIdentity := by
  simp [Validate, h1, h2]

/-- C4 witness: a set-up store whose only root is `certCA`, applied to
the identity of `certCA` itself — which even chain-verifies — still gets
the CA rejection. -/
theorem validate_rejects_ca_witness :
    mSet.opts = some { roots := [certCA], intermediates := [] } ∧
    idOfCA.cert.isCA = true ∧
    certVerify idOfCA.cert { roots := [certCA], intermediates := [] } = true ∧
    Validate mSet idOfCA = .error .caUsedAsIdentity :=
  ⟨rfl, rfl, by decide, validate_rejects_ca mSet _ idOfCA rfl rfl⟩

/-! ### Claim C5 -/

/-- C5: any wire record that unmarshals to a `SerializedIdentity` whose
MSP id differs from the store's name makes `DeserializeIdentity` fail
with the MSP-mismatch error, before the embedded certificate is even
looked at, and no identity is returned. -/
theorem deserialize_msp_mismatch (m : BccspMsp) (b : WireBytes) (rec : SerializedIdentity)
    (h1 : unmarshalSID b = some rec) (h2 : rec.Mspid ≠ m.name) :
    DeserializeIdentity m b = .error (.mspMismatch m.name rec.Mspid) := by
  simp [DeserializeIdentity, h1, h2]

/-- A serialized-identity record for a foreign MSP with a perfectly
valid embedded certificate. -/
def recOther : SerializedIdentity :=
  { Mspid := "other", IdBytes := some (.valid (.certDer certA)) }

/-- C5 witness: the foreign record, with a valid embedded certificate,
is rejected by the `"org1"` store with the mismatch error. -/
theorem deserialize_msp_mismatch_witness :
    unmarshalSID (.ofSID recOther) = some recOther ∧
    recOther.Mspid ≠ mSet.name ∧
    DeserializeIdentity mSet (.ofSID recOther) = .error (.mspMismatch mSet.name recOther.Mspid) :=
  ⟨rfl, by decide, deserialize_msp_mismatch mSet (.ofSID recOther) recOther rfl (by decide)⟩

/-! ### Claim C10 -/

/-- C10: `DeserializeIdentity` performs no setup-completion check — on no
store does it ever return the uninitialized-instance error, and on the
fresh (never-set-up) store, whose name is the empty string, a record with
MSP id `""` and a valid certificate is deserialized into an identity. -/
theorem deserialize_no_setup_check (m : BccspMsp) (b : WireBytes) (c : Certificate) (k : Nat)
    (h : c.pubKey = some k) :
    DeserializeIdentity m b ≠ .error .invalidMspInstance ∧
    DeserializeIdentity initialMsp (.ofSID { Mspid := "", IdBytes := some (.valid (.certDer c)) }) =
      .ok { id := { Mspid := "", Id := "DEFAULT" }, cert := c, pk := k } := by
  constructor
  · unfold DeserializeIdentity
    split
    · simp
    · split
      · simp
      · exact deserializeIdentityInternal_ne_uninit m _
  · simp [DeserializeIdentity, unmarshalSID, initialMsp, deserializeIdentityInternal,
          pemDecodeGo, pemDecode, parseCertificate, keyImportX509, h]

/-- C10 witness: instantiated at `certA` and an arbitrary wire blob. -/
theorem deserialize_no_setup_check_witness :
    certA.pubKey = some 5 ∧
    DeserializeIdentity mSet (.junk 0) ≠ .error .invalidMspInstance ∧
    DeserializeIdentity initialMsp (.ofSID { Mspid := "", IdBytes := some (.valid (.certDer certA)) }) =
      .ok { id := { Mspid := "", Id := "DEFAULT" }, cert := certA, pk := 5 } :=
  ⟨rfl, (deserialize_no_setup_check mSet (.junk 0) certA 5 rfl).1,
   (deserialize_no_setup_check mSet (.junk 0) certA 5 rfl).2⟩

/-! ### Claim C1 -/

/-- C1 counterexample: on the ORGANIZATION_UNIT path and on the
ADMIN-role path `SatisfiesPrincipal` does not return a catchable error
value at all — it aborts via `panic("Not yet implemented")`. -/
theorem satisfies_unimplemented_abort_cx :
    SatisfiesPrincipal initialMsp sampleId ⟨.ORGANIZATION_UNIT, .junk 0⟩ =
      .panicked .notYetImplemented ∧
    SatisfiesPrincipal initialMsp sampleId ⟨.ROLE, .ofRole ⟨"", .ADMIN⟩⟩ =
      .panicked .notYetImplemented ∧
    isErrResult (SatisfiesPrincipal initialMsp sampleId ⟨.ORGANIZATION_UNIT, .junk 0⟩) = false := by
  decide

/-- C1 amended: the unimplemented paths never return success, but they
abort with `panic("Not yet implemented")` instead of returning a
catchable error result (the ADMIN path is only reached when the role's
MSP identifier matches the store's name). -/
theorem satisfies_unimplemented_paths_abort (m : BccspMsp) (i : Identity) (p : MSPPrincipal)
    (r : MSPRole) (m2 : BccspMsp) (i2 : Identity) (p2 : MSPPrincipal)
    (h1 : p.PrincipalClassification = .ROLE)
    (h2 : unmarshalRole p.Principal = some r)
    (h3 : r.MSPIdentifier = m.name) (h4 : r.Role = .ADMIN)
    (h5 : p2.PrincipalClassification = .ORGANIZATION_UNIT) :
    SatisfiesPrincipal m i p = .panicked .notYetImplemented ∧
    SatisfiesPrincipal m2 i2 p2 = .panicked .notYetImplemented := by
  constructor
  · simp [SatisfiesPrincipal, h1, h2, h3, h4]
  · simp [SatisfiesPrincipal, h5]

/-- C1 amended witness: both abort sites hit at concrete inputs. -/
theorem satisfies_unimplemented_paths_abort_witness :
    SatisfiesPrincipal initialMsp sampleId ⟨.ROLE, .ofRole ⟨"", .ADMIN⟩⟩ =
      .panicked .notYetImplemented ∧
    SatisfiesPrincipal mSet sampleId ⟨.ORGANIZATION_UNIT, .junk 1⟩ =
      .panicked .notYetImplemented :=
  satisfies_unimplemented_paths_abort initialMsp sampleId ⟨.ROLE, .ofRole ⟨"", .ADMIN⟩⟩
    ⟨"", .ADMIN⟩ mSet sampleId ⟨.ORGANIZATION_UNIT, .junk 1⟩ rfl rfl rfl rfl rfl

/-! ### Claim C6 -/

/-- A store named `"B"` with no verify options. -/
def mB : BccspMsp := { initialMsp with name := "B" }

/-- An identity claiming provider `"A"`. -/
def iA : Identity := { id := { Mspid := "A", Id := "DEFAULT" }, cert := certA, pk := 5 }

/-- A ROLE principal for provider `"B"`, role MEMBER. -/
def pB : MSPPrincipal := ⟨.ROLE, .ofRole ⟨"B", .MEMBER⟩⟩

/-- A ROLE principal for provider `"A"`, role MEMBER. -/
def pA : MSPPrincipal := ⟨.ROLE, .ofRole ⟨"A", .MEMBER⟩⟩

/-- C6 counterexample: the payload's provider name (`"B"`) differs from
the identity's claimed provider (`"A"`), yet the result is not the
domain-mismatch error — the code compares the payload against the
*store's* name (`"B"`), the check passes, and evaluation proceeds into
MEMBER validation. -/
theorem role_domain_check_cx :
    unmarshalRole pB.Principal = some ⟨"B", .MEMBER⟩ ∧
    ("B" : String) ≠ iA.id.Mspid ∧
    SatisfiesPrincipal mB iA pB = .err .invalidMspInstance ∧
    isDomainMismatch (SatisfiesPrincipal mB iA pB) = false := by
  decide

/-- C6 amended: for a ROLE principal whose payload decodes, the
domain-mismatch error is produced exactly when the payload's provider
name differs from the *store's configured name* (not the identity's
claimed provider, which enters only the error message). -/
theorem role_domain_check_vs_store_name (m : BccspMsp) (i : Identity) (p : MSPPrincipal)
    (r : MSPRole) (h1 : p.PrincipalClassification = .ROLE)
    (h2 : unmarshalRole p.Principal = some r) :
    isDomainMismatch (SatisfiesPrincipal m i p) = true ↔ r.MSPIdentifier ≠ m.name := by
  by_cases hne : r.MSPIdentifier = m.name
  · simp only [SatisfiesPrincipal, h1, h2, hne, ne_eq, not_true_eq_false, if_false,
               iff_false]
    cases hr : r.Role
    · simp [isDomainMismatch_validate m i]
    · simp [isDomainMismatch]
    · simp [isDomainMismatch]
  · simp [SatisfiesPrincipal, h1, h2, hne, isDomainMismatch]

/-- C6 amended witness: provider `"A"` against the `"B"` store. -/
theorem role_domain_check_vs_store_name_witness :
    (isDomainMismatch (SatisfiesPrincipal mB iA pA) = true ↔ ("A" : String) ≠ mB.name) ∧
    isDomainMismatch (SatisfiesPrincipal mB iA pA) = true :=
  ⟨role_domain_check_vs_store_name mB iA pA ⟨"A", .MEMBER⟩ rfl rfl, by decide⟩

/-! ### Claim C7 -/

/-- A store named `"org1"` (fresh fields otherwise). -/
def roundM : BccspMsp := { initialMsp with name := "org1" }

/-- The identity `getIdentityFromConf` produces for `certA` on
`roundM`: local id `"IDENTITY"`. -/
def roundI : Identity := { id := { Mspid := "org1", Id := "IDENTITY" }, cert := certA, pk := 5 }

/-- What the round trip returns instead: local id `"DEFAULT"`. -/
def roundJ : Identity := { id := { Mspid := "org1", Id := "DEFAULT" }, cert := certA, pk := 5 }

/-- C7 counterexample: a valid identity produced by the store via
configuration ingest has local id `"IDENTITY"`; deserializing its
serialized form yields the same certificate but local id `"DEFAULT"`, so
the identifiers differ. -/
theorem roundtrip_changes_local_id_cx :
    getIdentityFromConf roundM (some (.valid (.certDer certA))) = .ok roundI ∧
    DeserializeIdentity roundM (serializeIdentity roundI) = .ok roundJ ∧
    roundJ.cert = roundI.cert ∧
    roundJ.id ≠ roundI.id :=
  ⟨rfl, rfl, rfl, by decide⟩

/-- C7 amended: for any identity with matching provider name and an
importable certificate key, the round trip returns an identity with the
same certificate and the same provider component, but with the fixed
placeholder local id `"DEFAULT"` — so the full identifier is preserved
only when the original local id is `"DEFAULT"`. -/
theorem roundtrip_cert_and_provider (m : BccspMsp) (i : Identity) (k : Nat)
    (h1 : i.id.Mspid = m.name) (h2 : i.cert.pubKey = some k) :
    DeserializeIdentity m (serializeIdentity i) =
      .ok { id := { Mspid := m.name, Id := "DEFAULT" }, cert := i.cert, pk := k } := by
  simp [DeserializeIdentity, serializeIdentity, unmarshalSID, h1,
        deserializeIdentityInternal, pemDecodeGo, pemDecode, parseCertificate,
        keyImportX509, h2]

/-- C7 amended witness: the round trip of `roundI` on `roundM`. -/
theorem roundtrip_cert_and_provider_witness :
    roundI.id.Mspid = roundM.name ∧
    roundI.cert.pubKey = some 5 ∧
    DeserializeIdentity roundM (serializeIdentity roundI) = .ok roundJ :=
  ⟨rfl, rfl, roundtrip_cert_and_provider roundM roundI 5 rfl rfl⟩

/-! ### Claim C9 -/

/-- A configuration whose signing-identity record carries private-key
material that is not valid PEM. -/
def confNilKey : FabricMSPConfig :=
  { Name := "org1", Admins := none,
    RootCerts := [some (.valid (.certDer certA))],
    IntermediateCerts := none,
    SigningIdentity := some { PublicSigner := some (.valid (.certDer certA)),
                              PrivateSigner := some { KeyMaterial := some (.invalid 0) } } }

/-- C9: on a signing-identity record whose key material is not valid
PEM, `Setup` does not return an error — it dereferences the nil result
of `pem.Decode` and aborts the process (`pemKey.Bytes` with
`pemKey == nil`). -/
theorem setup_nil_deref_on_bad_key :
    (Setup initialMsp (some { Config := .ofConf confNilKey })).2 = .panicked .nilDereference ∧
    isErrResult (Setup initialMsp (some { Config := .ofConf confNilKey })).2 = false := by
  decide

/-! ### Setup phase lemmas -/

/-- The signer phase leaves the name and root certificates alone. -/
theorem setupSigner_preserves (m : BccspMsp) (r i : List Identity) (conf : FabricMSPConfig) :
    (setupSigner m r i conf).1.name = m.name ∧
    (setupSigner m r i conf).1.rootCerts = m.rootCerts := by
  unfold setupSigner
  split
  · split <;> exact ⟨rfl, rfl⟩
  · exact ⟨rfl, rfl⟩

/-- The intermediate phase leaves the name and root certificates alone. -/
theorem setupIntermediates_preserves (m : BccspMsp) (r : List Identity) (conf : FabricMSPConfig) :
    (setupIntermediates m r conf).1.name = m.name ∧
    (setupIntermediates m r conf).1.rootCerts = m.rootCerts := by
  unfold setupIntermediates
  split
  · split
    · exact ⟨rfl, rfl⟩
    · exact setupSigner_preserves _ _ _ conf
  · exact setupSigner_preserves _ _ _ conf

/-- The root phase (and everything after it) leaves the name alone. -/
theorem setupRoots_preserves_name (m : BccspMsp) (conf : FabricMSPConfig) :
    (setupRoots m conf).1.name = m.name := by
  unfold setupRoots
  split
  · rfl
  · split
    · rfl
    · exact (setupIntermediates_preserves _ _ conf).1

/-- A successful ingest loop fills exactly one identity per blob. -/
theorem ingestLoop_ok_length (m : BccspMsp) (bs : List (Option PemBytes))
    (ids : List Identity) (h : ingestLoop m bs = .ok ids) : ids.length = bs.length := by
  induction bs generalizing ids with
  | nil =>
    unfold ingestLoop at h
    injection h with h
    subst h
    rfl
  | cons b bs ih =>
    unfold ingestLoop at h
    split at h
    · simp at h
    · split at h
      · simp at h
      · rename_i ids' hids
        injection h with h
        subst h
        simp [ih ids' hids]

/-- If the root phase succeeds, the stored root set is non-empty. -/
theorem setupRoots_ok_rootCerts (m : BccspMsp) (conf : FabricMSPConfig)
    (h : (setupRoots m conf).2 = .ok ()) : (setupRoots m conf).1.rootCerts ≠ [] := by
  by_cases he : conf.RootCerts.isEmpty
  · unfold setupRoots at h
    rw [if_pos he] at h
    simp at h
  · unfold setupRoots at h ⊢
    rw [if_neg he] at h ⊢
    cases hI : ingestLoop m conf.RootCerts with
    | error pe =>
      obtain ⟨part, e⟩ := pe
      simp only [hI] at h
      simp at h
    | ok ids =>
      simp only [hI]
      rw [(setupIntermediates_preserves _ _ conf).2]
      have hl := ingestLoop_ok_length m conf.RootCerts ids hI
      intro hc
      have hids : ids = [] := by simpa using hc
      rw [hids] at hl
      have : conf.RootCerts = [] := List.length_eq_zero.mp hl.symm
      simp [this] at he

/-- Any successful `Setup` leaves a non-empty stored root set. -/
theorem setup_ok_rootCerts (m : BccspMsp) (c : Option MSPConfig)
    (h : (Setup m c).2 = .ok ()) : (Setup m c).1.rootCerts ≠ [] := by
  cases c with
  | none => simp [Setup] at h
  | some c1 =>
    cases hu : unmarshalConfig c1.Config with
    | none => simp only [Setup, hu] at h; simp at h
    | some conf =>
      simp only [Setup, hu] at h ⊢
      cases hA : conf.Admins with
      | none =>
        simp only [hA] at h ⊢
        exact setupRoots_ok_rootCerts _ conf h
      | some ab =>
        simp only [hA] at h ⊢
        cases hI : ingestLoop { m with name := conf.Name } ab with
        | error pe =>
          obtain ⟨part, e⟩ := pe
          simp only [hI] at h
          simp at h
        | ok ids =>
          simp only [hI] at h ⊢
          exact setupRoots_ok_rootCerts _ conf h

/-- If the signer phase succeeds and a signing identity was configured,
the stored signer's key matches its certificate key. -/
theorem setupSigner_ok_signerMatches (m : BccspMsp) (r i : List Identity)
    (conf : FabricMSPConfig) (si : SigningIdentityInfo)
    (hsi : conf.SigningIdentity = some si)
    (h : (setupSigner m r i conf).2 = .ok ()) :
    signerMatches (setupSigner m r i conf).1.signer = true := by
  unfold setupSigner at h ⊢
  rw [hsi] at h ⊢
  cases hg : getSigningIdentityFromConf m (some si) with
  | panicked k => simp only [hg] at h; simp at h
  | err e => simp only [hg] at h; simp at h
  | ok s =>
    simp only [hg]
    have hm := getSigningIdentityFromConf_matches m (some si) s hg
    simp [setupOpts, signerMatches, hm.1, hm.2]

/-- Lift of the previous lemma through the intermediate phase. -/
theorem setupIntermediates_ok_signerMatches (m : BccspMsp) (r : List Identity)
    (conf : FabricMSPConfig) (si : SigningIdentityInfo)
    (hsi : conf.SigningIdentity = some si)
    (h : (setupIntermediates m r conf).2 = .ok ()) :
    signerMatches (setupIntermediates m r conf).1.signer = true := by
  unfold setupIntermediates at h ⊢
  cases hIC : conf.IntermediateCerts with
  | none =>
    simp only [hIC] at h ⊢
    exact setupSigner_ok_signerMatches _ _ _ conf si hsi h
  | some blobs =>
    simp only [hIC] at h ⊢
    cases hI : ingestLoop m blobs with
    | error pe =>
      obtain ⟨part, e⟩ := pe
      simp only [hI] at h
      simp at h
    | ok interIds =>
      simp only [hI] at h ⊢
      exact setupSigner_ok_signerMatches _ _ _ conf si hsi h

/-- Lift through the root phase. -/
theorem setupRoots_ok_signerMatches (m : BccspMsp) (conf : FabricMSPConfig)
    (si : SigningIdentityInfo) (hsi : conf.SigningIdentity = some si)
    (h : (setupRoots m conf).2 = .ok ()) :
    signerMatches (setupRoots m conf).1.signer = true := by
  by_cases he : conf.RootCerts.isEmpty
  · unfold setupRoots at h
    rw [if_pos he] at h
    simp at h
  · unfold setupRoots at h ⊢
    rw [if_neg he] at h ⊢
    cases hI : ingestLoop m conf.RootCerts with
    | error pe =>
      obtain ⟨part, e⟩ := pe
      simp only [hI] at h
      simp at h
    | ok ids =>
      simp only [hI] at h ⊢
      exact setupIntermediates_ok_signerMatches _ _ conf si hsi h

/-! ### Claim C2 -/

/-- C2: every `SigningIdentity` stored by a successful `Setup` that was
given a signing-identity record has a bound signer whose public key
equals the identity's key handle and the certificate's imported key; and
when the binding validation fails (derived public key differs from the
ingested certificate's key) the signing-identity import — and hence
`Setup` — fails with the mismatch error. -/
theorem setup_signer_key_matches (m : BccspMsp) (c1 : MSPConfig) (conf : FabricMSPConfig)
    (si : SigningIdentityInfo) (m2 : BccspMsp) (si2 : SigningIdentityInfo)
    (ip2 : Identity) (k2 : Nat)
    (h1 : unmarshalConfig c1.Config = some conf)
    (h2 : conf.SigningIdentity = some si)
    (h3 : (Setup m (some c1)).2 = .ok ())
    (h4 : getIdentityFromConf m2 si2.PublicSigner = .ok ip2)
    (h5 : si2.PrivateSigner = some { KeyMaterial := some (.valid (.keyDer k2)) })
    (h6 : derivePublicKey k2 ≠ ip2.pk) :
    signerMatches (Setup m (some c1)).1.signer = true ∧
    getSigningIdentityFromConf m2 (some si2) = .err .signerPubKeyMismatch := by
  constructor
  · simp only [Setup, h1] at h3 ⊢
    cases hA : conf.Admins with
    | none =>
      simp only [hA] at h3 ⊢
      exact setupRoots_ok_signerMatches _ conf si h2 h3
    | some ab =>
      simp only [hA] at h3 ⊢
      cases hI : ingestLoop { m with name := conf.Name } ab with
      | error pe =>
        obtain ⟨part, e⟩ := pe
        simp only [hI] at h3
        simp at h3
      | ok ids =>
        simp only [hI] at h3 ⊢
        exact setupRoots_ok_signerMatches _ conf si h2 h3
  · simp only [getSigningIdentityFromConf, h4, h5, pemDecodeGo, pemDecode, keyImportECDSA,
               bindSigner, if_neg h6]

/-- A signing-identity record whose private key matches `certA`'s key. -/
def siGood : SigningIdentityInfo :=
  { PublicSigner := some (.valid (.certDer certA)),
    PrivateSigner := some { KeyMaterial := some (.valid (.keyDer 5)) } }

/-- A signing-identity record whose private key does not match `certA`'s
key. -/
def siBad : SigningIdentityInfo :=
  { PublicSigner := some (.valid (.certDer certA)),
    PrivateSigner := some { KeyMaterial := some (.valid (.keyDer 9)) } }

/-- A configuration with one root and a matching signing identity. -/
def confSign : FabricMSPConfig :=
  { Name := "org1", Admins := none,
    RootCerts := [some (.valid (.certDer certA))],
    IntermediateCerts := none,
    SigningIdentity := some siGood }

/-- C2 witness: `Setup` on `confSign` succeeds and stores a matching
signer; on `siBad` the binding validation fails with the mismatch
error. -/
theorem setup_signer_key_matches_witness :
    (Setup initialMsp (some { Config := .ofConf confSign })).2 = .ok () ∧
    signerMatches (Setup initialMsp (some { Config := .ofConf confSign })).1.signer = true ∧
    getSigningIdentityFromConf roundM (some siBad) = .err .signerPubKeyMismatch :=
  ⟨by decide,
   (setup_signer_key_matches initialMsp ⟨.ofConf confSign⟩ confSign siGood roundM siBad
      roundI 9 rfl rfl (by decide) rfl rfl (by decide)).1,
   (setup_signer_key_matches initialMsp ⟨.ofConf confSign⟩ confSign siGood roundM siBad
      roundI 9 rfl rfl (by decide) rfl rfl (by decide)).2⟩

/-! ### Claim C3 -/

/-- A configuration with an empty root-certificate list. -/
def confEmptyRoots : FabricMSPConfig :=
  { Name := "X", Admins := none, RootCerts := [],
    IntermediateCerts := none, SigningIdentity := none }

/-- A minimal configuration on which `Setup` succeeds. -/
def confGood : FabricMSPConfig :=
  { Name := "org1", Admins := none,
    RootCerts := [some (.valid (.certDer certA))],
    IntermediateCerts := none, SigningIdentity := none }

/-- C3: a configuration with an empty root list makes `Setup` fail —
the mandatory-root check itself yields the missing-roots config error —
and never produces verify options (the stored options are unchanged, so
no usable trust store appears); consequently every successful `Setup`
leaves a non-empty root set. -/
theorem setup_root_invariant (m : BccspMsp) (c1 : MSPConfig) (conf : FabricMSPConfig)
    (ma m2 : BccspMsp) (c2 : Option MSPConfig)
    (h1 : unmarshalConfig c1.Config = some conf)
    (h2 : conf.RootCerts = [])
    (h3 : (Setup m2 c2).2 = .ok ()) :
    (Setup m (some c1)).2 ≠ .ok () ∧
    (Setup m (some c1)).1.opts = m.opts ∧
    (setupRoots ma conf).2 = .err .noRootCerts ∧
    (Setup m2 c2).1.rootCerts ≠ [] := by
  have hroot : ∀ mb : BccspMsp, setupRoots mb conf = (mb, .err .noRootCerts) := by
    intro mb
    simp [setupRoots, h2]
  refine ⟨?_, ?_, by rw [hroot ma], setup_ok_rootCerts m2 c2 h3⟩
  · intro hok
    simp only [Setup, h1] at hok
    cases hA : conf.Admins with
    | none =>
      simp only [hA] at hok
      rw [hroot] at hok
      simp at hok
    | some ab =>
      simp only [hA] at hok
      cases hI : ingestLoop { m with name := conf.Name } ab with
      | error pe =>
        obtain ⟨part, e⟩ := pe
        simp only [hI] at hok
        simp at hok
      | ok ids =>
        simp only [hI] at hok
        rw [hroot] at hok
        simp at hok
  · simp only [Setup, h1]
    cases hA : conf.Admins with
    | none =>
      simp only [hA]
      rw [hroot]
    | some ab =>
      simp only [hA]
      cases hI : ingestLoop { m with name := conf.Name } ab with
      | error pe =>
        obtain ⟨part, e⟩ := pe
        simp only [hI]
      | ok ids =>
        simp only [hI]
        rw [hroot]

/-- C3 witness: the empty-root configuration fails without producing
options, and the good configuration succeeds with a non-empty root
set. -/
theorem setup_root_invariant_witness :
    confEmptyRoots.RootCerts = [] ∧
    (Setup initialMsp (some { Config := .ofConf confGood })).2 = .ok () ∧
    ((Setup initialMsp (some { Config := .ofConf confEmptyRoots })).2 ≠ .ok () ∧
     (Setup initialMsp (some { Config := .ofConf confEmptyRoots })).1.opts = initialMsp.opts ∧
     (setupRoots initialMsp confEmptyRoots).2 = .err .noRootCerts ∧
     (Setup initialMsp (some { Config := .ofConf confGood })).1.rootCerts ≠ []) :=
  ⟨rfl, by decide,
   setup_root_invariant initialMsp ⟨.ofConf confEmptyRoots⟩ confEmptyRoots initialMsp initialMsp
     (some ⟨.ofConf confGood⟩) rfl rfl (by decide)⟩

/-! ### Claim C8 -/

/-- C8 counterexample: `Setup` on the empty-root configuration returns
an error, yet the store's `name` field has already been overwritten in
place (`""` became `"X"`), so the observable state is not unchanged. -/
theorem setup_not_atomic_cx :
    (Setup initialMsp (some { Config := .ofConf confEmptyRoots })).2 ≠ .ok () ∧
    (Setup initialMsp (some { Config := .ofConf confEmptyRoots })).1.name = "X" ∧
    initialMsp.name ≠ "X" := by
  decide

/-- C8 amended: `Setup` leaves the store unchanged only when it fails
before the configuration is unmarshalled (nil reference or unmarshal
failure); once unmarshalling succeeds the name is set in place to the
configuration's name — even when `Setup` subsequently fails — so a
partially updated store is observable. -/
theorem setup_atomic_only_before_unmarshal (m : BccspMsp) (c1 bad : MSPConfig)
    (conf : FabricMSPConfig)
    (h1 : unmarshalConfig bad.Config = none)
    (h2 : unmarshalConfig c1.Config = some conf) :
    Setup m none = (m, .err .nilConfReference) ∧
    Setup m (some bad) = (m, .err .configUnmarshalFailed) ∧
    (Setup m (some c1)).1.name = conf.Name := by
  refine ⟨rfl, ?_, ?_⟩
  · simp [Setup, h1]
  · simp only [Setup, h2]
    cases hA : conf.Admins with
    | none =>
      simp only [hA]
      rw [setupRoots_preserves_name]
    | some ab =>
      simp only [hA]
      cases hI : ingestLoop { m with name := conf.Name } ab with
      | error pe =>
        obtain ⟨part, e⟩ := pe
        simp only [hI]
      | ok ids =>
        simp only [hI]
        rw [setupRoots_preserves_name]

/-- C8 amended witness: the unchanged-store cases at concrete inputs,
and the in-place name update on the empty-root configuration (which
fails). -/
theorem setup_atomic_only_before_unmarshal_witness :
    Setup initialMsp none = (initialMsp, .err .nilConfReference) ∧
    Setup initialMsp (some { Config := .malformed 0 }) = (initialMsp, .err .configUnmarshalFailed) ∧
    (Setup initialMsp (some { Config := .ofConf confEmptyRoots })).1.name = confEmptyRoots.Name :=
  setup_atomic_only_before_unmarshal initialMsp ⟨.ofConf confEmptyRoots⟩ ⟨.malformed 0⟩
    confEmptyRoots rfl rfl

end MspCore
